import Mathlib

/-!
Shallow embedding of the snyk utility (files `snyk_utility.py` and
`snyk_auth_debug.py`): the HTTP request executor `SnykAPIClient._make_request`,
the domain records `SnykIssue` / `SnykWaiver` / `WaiverTemplate`, the template
store `WaiverTemplateManager`, and the waiver workflow (`smart_add_waiver`,
`bulk_add_waivers_by_project_list`, `get_distinct_issues`, `get_all_waivers`,
expired-waiver cleanup).

Network effects are made explicit: an execution of the retry loop is driven by
a function `outcomes : Nat → Attempt` giving the result of the HTTP send on
each loop iteration, and the executor returns the final result together with
the list of sleep durations performed (in seconds, in order) and the number of
attempts actually sent.
-/

/-- Outcome of a single HTTP send inside the retry loop of
`SnykAPIClient._make_request`: either the transport layer raises
`requests.exceptions.RequestException` before any response arrives
(`transportError`), or a response arrives carrying a status code and an
optional integer `Retry-After` header. -/
inductive Attempt where
  | transportError : Attempt
  | response (status : Nat) (retryAfter : Option Nat) : Attempt
deriving DecidableEq

/-- Result of running `SnykAPIClient._make_request`: the response returned on
success (its status), the exception finally raised (carrying the HTTP status
for an `HTTPError`, `none` for a transport error), or the final
`Exception("Max retries exceeded")` reached when the loop ends without
returning. -/
inductive ReqResult where
  | success (status : Nat) : ReqResult
  | raisedError (status : Option Nat) : ReqResult
  | maxRetriesExceeded : ReqResult
deriving DecidableEq

/-- `max_retries = 3` in `_make_request` (both revisions). -/
def max_retries : Nat := 3

/-- `backoff_factor = 1` in `_make_request`. -/
def backoff_factor : Nat := 1

/-- `requests.Response.raise_for_status` raises `HTTPError` exactly for
4xx/5xx status codes. -/
def raisesForStatus (s : Nat) : Bool := 400 ≤ s && s < 600

/-- `int(response.headers.get('Retry-After', 60))`: the `Retry-After` header
value, defaulting to 60 seconds when the header is absent. -/
def retryAfterOrDefault (ra : Option Nat) : Nat := ra.getD 60

/-- The body of the `for attempt in range(max_retries)` loop of
`SnykAPIClient._make_request` in `snyk_utility.py` (both the first and the
second revision of the file contain this identical loop). `fuel` is the
number of loop iterations still available, `attempt` the current loop index.
Returns `(result, sleeps, attemptsSent)` for the remainder of the loop:

* a 429 response sleeps for the `Retry-After` duration and `continue`s;
* any other response either returns (status not in 4xx/5xx) or raises
  `HTTPError`, which the `except RequestException` arm catches: on the last
  iteration the error is re-raised, otherwise the loop sleeps
  `backoff_factor * 2 ** attempt` seconds and retries;
* a transport error is handled by the same `except` arm;
* when the loop runs out of iterations, `Exception("Max retries exceeded")`
  is raised. -/
def makeRequestGo (outcomes : Nat → Attempt) : Nat → Nat → ReqResult × List Nat × Nat
  | 0, _ => (.maxRetriesExceeded, [], 0)
  | fuel + 1, attempt =>
    match outcomes attempt with
    | .transportError =>
      if attempt = max_retries - 1 then (.raisedError none, [], 1)
      else
        let rest := makeRequestGo outcomes fuel (attempt + 1)
        (rest.1, backoff_factor * 2 ^ attempt :: rest.2.1, rest.2.2 + 1)
    | .response s ra =>
      if s = 429 then
        let rest := makeRequestGo outcomes fuel (attempt + 1)
        (rest.1, retryAfterOrDefault ra :: rest.2.1, rest.2.2 + 1)
      else if raisesForStatus s then
        if attempt = max_retries - 1 then (.raisedError (some s), [], 1)
        else
          let rest := makeRequestGo outcomes fuel (attempt + 1)
          (rest.1, backoff_factor * 2 ^ attempt :: rest.2.1, rest.2.2 + 1)
      else (.success s, [], 1)

/-- `SnykAPIClient._make_request` of `snyk_utility.py`. -/
def make_request (outcomes : Nat → Attempt) : ReqResult × List Nat × Nat :=
  makeRequestGo outcomes max_retries 0

/-- The retry loop of `SnykAPIClient._make_request` in `snyk_auth_debug.py`.
It differs from the `snyk_utility.py` loop in exactly one way: a 401 response
is recognised before anything else and its `HTTPError` is re-raised
unconditionally by the `except HTTPError` arm ("Don't retry 401 errors"),
with no sleep, regardless of the remaining budget. -/
def makeRequestDebugGo (outcomes : Nat → Attempt) : Nat → Nat → ReqResult × List Nat × Nat
  | 0, _ => (.maxRetriesExceeded, [], 0)
  | fuel + 1, attempt =>
    match outcomes attempt with
    | .transportError =>
      if attempt = max_retries - 1 then (.raisedError none, [], 1)
      else
        let rest := makeRequestDebugGo outcomes fuel (attempt + 1)
        (rest.1, backoff_factor * 2 ^ attempt :: rest.2.1, rest.2.2 + 1)
    | .response s ra =>
      if s = 401 then (.raisedError (some 401), [], 1)
      else if s = 429 then
        let rest := makeRequestDebugGo outcomes fuel (attempt + 1)
        (rest.1, retryAfterOrDefault ra :: rest.2.1, rest.2.2 + 1)
      else if raisesForStatus s then
        if attempt = max_retries - 1 then (.raisedError (some s), [], 1)
        else
          let rest := makeRequestDebugGo outcomes fuel (attempt + 1)
          (rest.1, backoff_factor * 2 ^ attempt :: rest.2.1, rest.2.2 + 1)
      else (.success s, [], 1)

/-- `SnykAPIClient._make_request` of `snyk_auth_debug.py`. -/
def make_request_debug (outcomes : Nat → Attempt) : ReqResult × List Nat × Nat :=
  makeRequestDebugGo outcomes max_retries 0

/-- An attempt outcome that the `except RequestException` arm of the
`snyk_utility.py` executor treats as a retryable failure: a transport error,
or a response whose status is 4xx/5xx but not 429 (a "plain 500" is the
spec's example). -/
def isPlainFailure : Attempt → Prop
  | .transportError => True
  | .response s _ => 400 ≤ s ∧ s < 600 ∧ s ≠ 429

/-- The `SnykWaiver` dataclass of `snyk_utility.py`. -/
structure SnykWaiver where
  id : String
  issue_id : String
  project_id : String
  project_name : String
  reason : String
  waiver_type : String
  created_date : String
  expiry_date : String
  created_by : String
  is_active : Bool
  issue_title : String
  issue_severity : String
deriving DecidableEq

/-- The `is_active` computation shared by
`SnykAPIClient.get_existing_waivers_for_issue` and
`SnykAPIClient.get_all_waivers`:

```
is_active = True
if expiry_str:
    try:
        expiry_date = datetime.fromisoformat(expiry_str.replace('Z', '+00:00'))
        is_active = expiry_date > datetime.now(expiry_date.tzinfo)
    except:
        pass
```

`parseIso` abstracts `datetime.fromisoformat` applied after the `'Z'`
replacement (returning `none` when it raises), dates abstracted as integer
timestamps; `now` is the current timestamp. A missing `expiry` attribute
reaches this code as `attrs.get('expiry', '')`, i.e. the empty string. -/
def computeIsActive (expiry_str : String) (parseIso : String → Option Int) (now : Int) : Bool :=
  if expiry_str = "" then true
  else
    match parseIso expiry_str with
    | none => true
    | some expiry_date => decide (expiry_date > now)

/-- The waiver record built for each API entry by
`SnykAPIClient.get_existing_waivers_for_issue` (project name, issue title and
severity are left empty there: "Not needed for this check"). -/
def mkExistingWaiver (waiver_id issue_id project_id reason waiver_type created expiry
    created_by : String) (parseIso : String → Option Int) (now : Int) : SnykWaiver :=
  { id := waiver_id
    issue_id := issue_id
    project_id := project_id
    project_name := ""
    reason := reason
    waiver_type := waiver_type
    created_date := created
    expiry_date := expiry
    created_by := created_by
    is_active := computeIsActive expiry parseIso now
    issue_title := ""
    issue_severity := "" }

/-- The `active_only` filtering of `SnykAPIClient.get_all_waivers`: a built
waiver is skipped iff `active_only and not is_active`. -/
def filterActiveOnly (active_only : Bool) (ws : List SnykWaiver) : List SnykWaiver :=
  if active_only then ws.filter fun w => w.is_active else ws

/-- The selection of `SnykUtility.cleanup_expired_waivers`:
`expired_waivers = [w for w in all_waivers if not w.is_active]`. -/
def expiredWaivers (ws : List SnykWaiver) : List SnykWaiver :=
  ws.filter fun w => !w.is_active

/-- `SnykAPIClient.smart_add_waiver`, with its three network interactions
made explicit: `issue_exists` is whether the existence probe
(`GET .../projects/{pid}/issues/{iid}`) succeeds (any exception takes the
early `skipped_no_issue` return), `existing` is what
`get_existing_waivers_for_issue` returns, and `add_ok` is the boolean result
of `add_waiver`. Returns the `status` string of the result dict, paired with
whether `add_waiver` was invoked at all. -/
def smart_add_waiver (issue_exists : Bool) (existing : List SnykWaiver)
    (add_ok : Bool) (skip_if_waived : Bool) : String × Bool :=
  if issue_exists = false then ("skipped_no_issue", false)
  else if skip_if_waived && !((existing.filter fun w => w.is_active).isEmpty) then
    ("skipped_existing_waiver", false)
  else if add_ok then ("added", true)
  else ("failed", true)

/-- The `SnykIssue` dataclass of `snyk_utility.py`. -/
structure SnykIssue where
  id : String
  title : String
  severity : String
  issue_type : String
  project_id : String
  project_name : String
  package_name : String
  package_version : String
  introduced_date : String
deriving DecidableEq

/-- `SnykIssue.__eq__`: equality is keyed on the triple
`(id, package_name, package_version)`. -/
def SnykIssue.beq (a b : SnykIssue) : Bool :=
  a.id == b.id && a.package_name == b.package_name && a.package_version == b.package_version

/-- The tuple hashed by `SnykIssue.__hash__`:
`hash((self.id, self.package_name, self.package_version))`. -/
def SnykIssue.hashKey (a : SnykIssue) : String × String × String :=
  (a.id, a.package_name, a.package_version)

/-- One `set.add` step of Python's `all_issues.update(project_issues)`: the
issue is added unless an element equal under `SnykIssue.__eq__` is already
present (hash and equality agree on the same triple). The set is modelled as
a duplicate-free-under-`beq` list in insertion order. -/
def insertIssue (s : List SnykIssue) (i : SnykIssue) : List SnykIssue :=
  if s.any fun j => SnykIssue.beq j i then s else s ++ [i]

/-- One iteration of the project loop of `SnykAPIClient.get_distinct_issues`:
`all_issues.update(self.get_project_issues(project_id))`. -/
def distinctStep (fetch : String → List SnykIssue) (acc : List SnykIssue) (pid : String) :
    List SnykIssue :=
  (fetch pid).foldl insertIssue acc

/-- `SnykAPIClient.get_distinct_issues`, parameterised by the per-project
fetch (`get_project_issues`): starts from the empty set and unions every
project's issue list into it. -/
def get_distinct_issues (fetch : String → List SnykIssue) (project_ids : List String) :
    List SnykIssue :=
  project_ids.foldl (distinctStep fetch) []

/-- Elements of a deduplicated accumulator are pairwise unequal under
`SnykIssue.__eq__`. -/
def PairwiseDistinct (s : List SnykIssue) : Prop :=
  ∀ x ∈ s, ∀ y ∈ s, x ≠ y → SnykIssue.beq x y = false

/-- The per-entry data that `SnykAPIClient.get_project_issues` reads from the
issues response (after the `attrs.get(..., default)` fallbacks have been
applied): `issue_data['id']` and the `title` / `severity` / `type` /
`created_at` attributes. -/
structure IssueAttrs where
  data_id : String
  title : String
  severity : String
  issue_type : String
  created_at : String
deriving DecidableEq

/-- The `SnykIssue` constructed for one entry by
`SnykAPIClient.get_project_issues` (both revisions): `package_name` and
`package_version` are initialised to `'Unknown'` and never reassigned — the
first revision inspects `relationships['problems']` but only binds an unused
`problem_id`, and the second revision drops even that—so every constructed
issue carries the literal `'Unknown'` package coordinates. -/
def mkProjectIssue (project_id project_name : String) (d : IssueAttrs) : SnykIssue :=
  { id := d.data_id
    title := d.title
    severity := d.severity
    issue_type := d.issue_type
    project_id := project_id
    project_name := project_name
    package_name := "Unknown"
    package_version := "Unknown"
    introduced_date := d.created_at }

/-- The issue list built by `SnykAPIClient.get_project_issues` for a project,
given the project name resolved by the first request and the issue entries of
the second. -/
def get_project_issues (project_id project_name : String) (entries : List IssueAttrs) :
    List SnykIssue :=
  entries.map (mkProjectIssue project_id project_name)

/-- Python `str.lower()` on the characters of a string (modelled on the
character list). -/
def lowerChars (s : String) : List Char := s.data.map Char.toLower

/-- Whether the first list occurs at the head of the second. -/
def charsAtHead : List Char → List Char → Bool
  | [], _ => true
  | _ :: _, [] => false
  | a :: as, b :: bs => a == b && charsAtHead as bs

/-- Python's contiguous-substring test `needle in haystack` on character
lists. -/
def charsHasSub (needle : List Char) : List Char → Bool
  | [] => charsAtHead needle []
  | b :: bs => charsAtHead needle (b :: bs) || charsHasSub needle bs

/-- The per-issue match test of `bulk_add_waivers_by_project_list`:
`issue_reference.lower() in issue.title.lower()`. -/
def titleMatches (issue_reference title : String) : Bool :=
  charsHasSub (lowerChars issue_reference) (lowerChars title)

/-- `issue_reference.startswith('SNYK-')`: the branch that takes the
reference as a direct issue id. -/
def refIsDirectId (issue_reference : String) : Bool :=
  charsAtHead "SNYK-".data issue_reference.data

/-- The `matching_issues` list of `bulk_add_waivers_by_project_list`. -/
def resolveByTitle (issue_reference : String) (project_issues : List SnykIssue) :
    List SnykIssue :=
  project_issues.filter fun i => titleMatches issue_reference i.title

/-- The per-project body of `SnykAPIClient.bulk_add_waivers_by_project_list`:
resolve the human-supplied `issue_reference` to an issue id (directly when it
starts with `SNYK-`, otherwise by case-insensitive substring match on the
fetched project issues' titles), then delegate to `smart_add_waiver`
(abstracted as `smart`, mapping the chosen issue id to its result).  Returns
the result recorded for the project, paired with the issue id handed to
`smart_add_waiver` (`none` when `smart_add_waiver` is never called, so no
waiver-creation request can happen). -/
def bulk_project_outcome (issue_reference : String) (project_issues : List SnykIssue)
    (smart : String → String × Bool) : (String × Bool) × Option String :=
  if refIsDirectId issue_reference then (smart issue_reference, some issue_reference)
  else
    match resolveByTitle issue_reference project_issues with
    | [] => (("skipped_no_issue", false), none)
    | [i] => (smart i.id, some i.id)
    | _ => (("failed", false), none)

/-- The `WaiverTemplate` dataclass of `snyk_utility.py`. -/
structure WaiverTemplate where
  name : String
  description : String
  waiver_type : String
  default_days : Nat
  justification : String
  category : String
deriving DecidableEq

/-- The nine built-in templates returned by
`WaiverTemplateManager._load_default_templates` in the first revision of
`snyk_utility.py`. -/
def default_templates : List WaiverTemplate :=
  [{ name := "false_positive"
     description := "False Positive - Issue not applicable to our use case"
     waiver_type := "not-applicable"
     default_days := 365
     justification := "After analysis, this vulnerability does not apply to our specific implementation or usage pattern."
     category := "analysis" },
   { name := "dev_dependency"
     description := "Development Dependency - Not in production"
     waiver_type := "not-applicable"
     default_days := 180
     justification := "This vulnerability exists in a development-only dependency and does not affect production code."
     category := "environment" },
   { name := "upgrade_planned"
     description := "Upgrade Planned - Fix scheduled"
     waiver_type := "temporary"
     default_days := 90
     justification := "Upgrade to resolve this vulnerability is planned and scheduled for the next release cycle."
     category := "remediation" },
   { name := "no_exploit_path"
     description := "No Exploit Path - Code path not accessible"
     waiver_type := "not-applicable"
     default_days := 365
     justification := "The vulnerable code path is not accessible in our application architecture."
     category := "analysis" },
   { name := "low_risk_accepted"
     description := "Low Risk Accepted - Business decision to accept"
     waiver_type := "wont-fix"
     default_days := 365
     justification := "After risk assessment, business has decided to accept this low-risk vulnerability."
     category := "business" },
   { name := "legacy_system"
     description := "Legacy System - Cannot be updated"
     waiver_type := "wont-fix"
     default_days := 730
     justification := "This is a legacy system that cannot be updated due to business constraints."
     category := "legacy" },
   { name := "vendor_patch_pending"
     description := "Vendor Patch Pending - Waiting for upstream fix"
     waiver_type := "temporary"
     default_days := 180
     justification := "Waiting for vendor to release a patch for this vulnerability."
     category := "vendor" },
   { name := "test_environment"
     description := "Test Environment - Not production critical"
     waiver_type := "not-applicable"
     default_days := 180
     justification := "This vulnerability exists in test environment and does not impact production security."
     category := "environment" },
   { name := "internal_tool"
     description := "Internal Tool - Limited exposure"
     waiver_type := "wont-fix"
     default_days := 365
     justification := "This is an internal tool with limited exposure and accepted risk."
     category := "business" }]

/-- The ten built-in templates returned by
`WaiverTemplateManager._load_default_templates` in the second revision of
`snyk_utility.py`: the same nine plus `compensating_controls`, inserted
between `no_exploit_path` and `low_risk_accepted`. -/
def default_templates_v2 : List WaiverTemplate :=
  [{ name := "false_positive"
     description := "False Positive - Issue not applicable to our use case"
     waiver_type := "not-applicable"
     default_days := 365
     justification := "After analysis, this vulnerability does not apply to our specific implementation or usage pattern."
     category := "analysis" },
   { name := "dev_dependency"
     description := "Development Dependency - Not in production"
     waiver_type := "not-applicable"
     default_days := 180
     justification := "This vulnerability exists in a development-only dependency and does not affect production code."
     category := "environment" },
   { name := "upgrade_planned"
     description := "Upgrade Planned - Fix scheduled"
     waiver_type := "temporary"
     default_days := 90
     justification := "Upgrade to resolve this vulnerability is planned and scheduled for the next release cycle."
     category := "remediation" },
   { name := "no_exploit_path"
     description := "No Exploit Path - Code path not accessible"
     waiver_type := "not-applicable"
     default_days := 365
     justification := "The vulnerable code path is not accessible in our application architecture."
     category := "analysis" },
   { name := "compensating_controls"
     description := "Compensating Controls - Alternative protections in place"
     waiver_type := "wont-fix"
     default_days := 365
     justification := "Compensating security controls are in place that mitigate this vulnerability."
     category := "mitigation" },
   { name := "low_risk_accepted"
     description := "Low Risk Accepted - Business decision to accept"
     waiver_type := "wont-fix"
     default_days := 365
     justification := "After risk assessment, business has decided to accept this low-risk vulnerability."
     category := "business" },
   { name := "legacy_system"
     description := "Legacy System - Cannot be updated"
     waiver_type := "wont-fix"
     default_days := 730
     justification := "This is a legacy system that cannot be updated due to business constraints."
     category := "legacy" },
   { name := "vendor_patch_pending"
     description := "Vendor Patch Pending - Waiting for upstream fix"
     waiver_type := "temporary"
     default_days := 180
     justification := "Waiting for vendor to release a patch for this vulnerability."
     category := "vendor" },
   { name := "test_environment"
     description := "Test Environment - Not production critical"
     waiver_type := "not-applicable"
     default_days := 180
     justification := "This vulnerability exists in test environment and does not impact production security."
     category := "environment" },
   { name := "internal_tool"
     description := "Internal Tool - Limited exposure"
     waiver_type := "wont-fix"
     default_days := 365
     justification := "This is an internal tool with limited exposure and accepted risk."
     category := "business" }]

/-- The `default_names` set recomputed by `remove_template` and
`save_custom_templates`: `{t.name for t in self._load_default_templates()}`,
with `defaults` the value of `_load_default_templates()` of the revision at
hand (`default_templates` or `default_templates_v2`). -/
def default_names (defaults : List WaiverTemplate) : List String :=
  defaults.map fun t => t.name

/-- `WaiverTemplateManager.save_custom_templates` selects what is written to
the JSON file: exactly the in-memory templates whose name is not a default
name. -/
def save_custom_templates (defaults templates : List WaiverTemplate) :
    List WaiverTemplate :=
  templates.filter fun t => !((default_names defaults).contains t.name)

/-- The state of a `WaiverTemplateManager`: the in-memory `self.templates`
list and the `custom_templates` list persisted in the JSON file. -/
structure TemplateState where
  templates : List WaiverTemplate
  file : List WaiverTemplate
deriving DecidableEq

/-- The deletion loop of `remove_template`: `del self.templates[i]` for the
first index whose template has the given name, `none` when no name matches
(the loop falls through and returns `False`). -/
def removeFirstByName : List WaiverTemplate → String → Option (List WaiverTemplate)
  | [], _ => none
  | t :: ts, name =>
    if t.name = name then some ts
    else
      match removeFirstByName ts name with
      | some rest => some (t :: rest)
      | none => none

/-- `WaiverTemplateManager.remove_template` (identical logic in both
revisions, each recomputing `default_names` from its own
`_load_default_templates`): refuses default template names outright;
otherwise deletes the first template with the given name and persists via
`save_custom_templates`, returning whether a removal happened together with
the new state. -/
def remove_template (defaults : List WaiverTemplate) (st : TemplateState)
    (name : String) : Bool × TemplateState :=
  if (default_names defaults).contains name then (false, st)
  else
    match removeFirstByName st.templates name with
    | some ts => (true, { templates := ts, file := save_custom_templates defaults ts })
    | none => (false, st)

lemma smart_add_waiver_skips_active (ws : List SnykWaiver) (add_ok : Bool)
    (h : ∃ w ∈ ws, w.is_active = true) :
    smart_add_waiver true ws add_ok true = ("skipped_existing_waiver", false) := by
  obtain ⟨w, hw, hact⟩ := h
  have hmem : w ∈ ws.filter fun w => w.is_active := List.mem_filter.2 ⟨hw, hact⟩
  unfold smart_add_waiver
  match e : ws.filter fun w => w.is_active with
  | [] => rw [e] at hmem; cases hmem
  | x :: xs => simp [e]

lemma SnykIssue.beq_iff {a b : SnykIssue} :
    SnykIssue.beq a b = true ↔
      a.id = b.id ∧ a.package_name = b.package_name ∧ a.package_version = b.package_version := by
  simp [SnykIssue.beq, Bool.and_eq_true, and_assoc]

lemma SnykIssue.beq_refl (a : SnykIssue) : SnykIssue.beq a a = true :=
  SnykIssue.beq_iff.2 ⟨rfl, rfl, rfl⟩

lemma SnykIssue.beq_symm (a b : SnykIssue) : SnykIssue.beq a b = SnykIssue.beq b a := by
  rw [Bool.eq_iff_iff, SnykIssue.beq_iff, SnykIssue.beq_iff]
  constructor
  · rintro ⟨h1, h2, h3⟩; exact ⟨h1.symm, h2.symm, h3.symm⟩
  · rintro ⟨h1, h2, h3⟩; exact ⟨h1.symm, h2.symm, h3.symm⟩

lemma mem_insertIssue_of_mem {x : SnykIssue} {s : List SnykIssue} (i : SnykIssue)
    (h : x ∈ s) : x ∈ insertIssue s i := by
  unfold insertIssue
  split
  · exact h
  · exact List.mem_append_left _ h

lemma mem_of_mem_insertIssue {x i : SnykIssue} {s : List SnykIssue}
    (h : x ∈ insertIssue s i) : x ∈ s ∨ x = i := by
  unfold insertIssue at h
  split at h
  · exact Or.inl h
  · rcases List.mem_append.1 h with h' | h'
    · exact Or.inl h'
    · exact Or.inr (List.mem_singleton.1 h')

lemma mem_foldl_insertIssue_of_mem {x : SnykIssue} :
    ∀ (ls acc : List SnykIssue), x ∈ acc → x ∈ ls.foldl insertIssue acc := by
  intro ls
  induction ls with
  | nil => intro acc h; exact h
  | cons hd tl ih =>
    intro acc h
    exact ih (insertIssue acc hd) (mem_insertIssue_of_mem hd h)

lemma mem_of_mem_foldl_insertIssue {x : SnykIssue} :
    ∀ (ls acc : List SnykIssue), x ∈ ls.foldl insertIssue acc → x ∈ acc ∨ x ∈ ls := by
  intro ls
  induction ls with
  | nil => intro acc h; exact Or.inl h
  | cons hd tl ih =>
    intro acc h
    rcases ih (insertIssue acc hd) h with h' | h'
    · rcases mem_of_mem_insertIssue h' with h'' | h''
      · exact Or.inl h''
      · exact Or.inr (h'' ▸ List.mem_cons_self hd tl)
    · exact Or.inr (List.mem_cons_of_mem hd h')

lemma covered_foldl_insertIssue {y : SnykIssue} :
    ∀ (ls acc : List SnykIssue), y ∈ ls →
      ∃ r ∈ ls.foldl insertIssue acc, SnykIssue.beq r y = true := by
  intro ls
  induction ls with
  | nil => intro acc h; cases h
  | cons hd tl ih =>
    intro acc h
    rcases List.mem_cons.1 h with rfl | h'
    · have : ∃ r ∈ insertIssue acc y, SnykIssue.beq r y = true := by
        unfold insertIssue
        split
        · rename_i hany
          obtain ⟨j, hj, hbeq⟩ := List.any_eq_true.1 hany
          exact ⟨j, hj, hbeq⟩
        · exact ⟨y, List.mem_append_right _ (List.mem_singleton.2 rfl), SnykIssue.beq_refl y⟩
      obtain ⟨r, hr, hbeq⟩ := this
      exact ⟨r, mem_foldl_insertIssue_of_mem tl _ hr, hbeq⟩
    · exact ih (insertIssue acc hd) h'

lemma mem_foldl_distinctStep_of_mem {fetch : String → List SnykIssue} {x : SnykIssue} :
    ∀ (pids : List String) (acc : List SnykIssue),
      x ∈ acc → x ∈ pids.foldl (distinctStep fetch) acc := by
  intro pids
  induction pids with
  | nil => intro acc h; exact h
  | cons hd tl ih =>
    intro acc h
    exact ih (distinctStep fetch acc hd) (mem_foldl_insertIssue_of_mem _ _ h)

lemma mem_of_mem_foldl_distinctStep {fetch : String → List SnykIssue} {x : SnykIssue} :
    ∀ (pids : List String) (acc : List SnykIssue),
      x ∈ pids.foldl (distinctStep fetch) acc → x ∈ acc ∨ ∃ p ∈ pids, x ∈ fetch p := by
  intro pids
  induction pids with
  | nil => intro acc h; exact Or.inl h
  | cons hd tl ih =>
    intro acc h
    rcases ih (distinctStep fetch acc hd) h with h' | ⟨p, hp, hxp⟩
    · rcases mem_of_mem_foldl_insertIssue (fetch hd) acc h' with h'' | h''
      · exact Or.inl h''
      · exact Or.inr ⟨hd, List.mem_cons_self hd tl, h''⟩
    · exact Or.inr ⟨p, List.mem_cons_of_mem hd hp, hxp⟩

lemma covered_foldl_distinctStep {fetch : String → List SnykIssue} {p : String}
    {y : SnykIssue} :
    ∀ (pids : List String) (acc : List SnykIssue), p ∈ pids → y ∈ fetch p →
      ∃ r ∈ pids.foldl (distinctStep fetch) acc, SnykIssue.beq r y = true := by
  intro pids
  induction pids with
  | nil => intro acc h; cases h
  | cons hd tl ih =>
    intro acc h hy
    rcases List.mem_cons.1 h with rfl | h'
    · obtain ⟨r, hr, hbeq⟩ := covered_foldl_insertIssue (fetch p) acc hy
      exact ⟨r, mem_foldl_distinctStep_of_mem tl _ hr, hbeq⟩
    · exact ih (distinctStep fetch acc hd) h' hy

lemma pairwiseDistinct_insertIssue {s : List SnykIssue} (i : SnykIssue)
    (h : PairwiseDistinct s) : PairwiseDistinct (insertIssue s i) := by
  unfold insertIssue
  split
  · exact h
  · rename_i hany
    have hall : ∀ j ∈ s, SnykIssue.beq j i = false := by
      intro j hj
      have := List.any_eq_false.1 (Bool.of_not_eq_true hany) j hj
      exact Bool.not_eq_true _ ▸ Bool.eq_false_iff.2 this
    intro x hx y hy hne
    rcases List.mem_append.1 hx with hx' | hx' <;>
      rcases List.mem_append.1 hy with hy' | hy'
    · exact h x hx' y hy' hne
    · rw [List.mem_singleton.1 hy']
      exact hall x hx'
    · rw [List.mem_singleton.1 hx', SnykIssue.beq_symm]
      exact hall y hy'
    · exact absurd (List.mem_singleton.1 hx' ▸ List.mem_singleton.1 hy' ▸ rfl) hne

lemma pairwiseDistinct_foldl_insertIssue :
    ∀ (ls acc : List SnykIssue), PairwiseDistinct acc →
      PairwiseDistinct (ls.foldl insertIssue acc) := by
  intro ls
  induction ls with
  | nil => intro acc h; exact h
  | cons hd tl ih =>
    intro acc h
    exact ih (insertIssue acc hd) (pairwiseDistinct_insertIssue hd h)

lemma pairwiseDistinct_get_distinct_issues (fetch : String → List SnykIssue)
    (pids : List String) : PairwiseDistinct (get_distinct_issues fetch pids) := by
  unfold get_distinct_issues
  suffices h : ∀ (ps : List String) (acc : List SnykIssue), PairwiseDistinct acc →
      PairwiseDistinct (ps.foldl (distinctStep fetch) acc) by
    exact h pids [] (fun x hx => absurd hx (List.not_mem_nil x))
  intro ps
  induction ps with
  | nil => intro acc h; exact h
  | cons hd tl ih =>
    intro acc h
    exact ih (distinctStep fetch acc hd) (pairwiseDistinct_foldl_insertIssue _ _ h)

lemma get_distinct_issues_two (a b : SnykIssue) :
    get_distinct_issues (fun p => if p = "p1" then [a] else [b]) ["p1", "p2"]
      = insertIssue [a] b := rfl

lemma removeFirstByName_isSome_iff :
    ∀ (ts : List WaiverTemplate) (name : String),
      (∃ l, removeFirstByName ts name = some l) ↔ ∃ t ∈ ts, t.name = name := by
  intro ts name
  induction ts with
  | nil => simp [removeFirstByName]
  | cons hd tl ih =>
    unfold removeFirstByName
    by_cases h : hd.name = name
    · simp only [if_pos h]
      constructor
      · intro _; exact ⟨hd, List.mem_cons_self hd tl, h⟩
      · intro _; exact ⟨tl, rfl⟩
    · simp only [if_neg h]
      constructor
      · intro ⟨l, hl⟩
        match e : removeFirstByName tl name with
        | some rest =>
          obtain ⟨t, ht, htn⟩ := ih.1 ⟨rest, e⟩
          exact ⟨t, List.mem_cons_of_mem hd ht, htn⟩
        | none => rw [e] at hl; cases hl
      · intro ⟨t, ht, htn⟩
        rcases List.mem_cons.1 ht with rfl | ht'
        · exact absurd htn h
        · obtain ⟨l, hl⟩ := ih.2 ⟨t, ht', htn⟩
          rw [hl]
          exact ⟨hd :: l, rfl⟩

/-- Claim C1 (counterexample): in `_make_request` the `continue` taken on a
429 response still advances the `for attempt in range(max_retries)` loop, so
a 429 DOES consume the bounded 3-attempt budget.  Three consecutive 429
responses exhaust the loop and raise `Max retries exceeded` (only 3 rate
limited responses are ever observed, not arbitrarily many), and after one 429
only 2 non-429 attempts remain, not 3: a 429 followed by transport failures
fails after 3 total attempts with sleeps `[60, 2]`. -/
theorem c1_429_budget_counterexample :
    make_request (fun _ => .response 429 none) = (.maxRetriesExceeded, [60, 60, 60], 3) ∧
    make_request (fun n => if n = 0 then .response 429 none else .transportError) =
      (.raisedError none, [60, 2], 3) := by
  decide

/-- Claim C1 (amended): a 429 response makes the executor sleep for the
`Retry-After` duration (default 60 s when the header is absent) and attempt
the request again without an additional backoff sleep — but each 429 consumes
one of the 3 attempts of the bounded budget: a 429 followed by a success
yields the success after the single `Retry-After` sleep and 2 attempts, while
3 consecutive 429 responses exhaust the budget and the executor fails with
`Max retries exceeded` after exactly 3 attempts. -/
theorem c1_429_retry_after_amended (ra : Option Nat) :
    make_request (fun n => if n = 0 then .response 429 ra else .response 200 none) =
      (.success 200, [retryAfterOrDefault ra], 2) ∧
    make_request (fun _ => .response 429 ra) =
      (.maxRetriesExceeded,
        [retryAfterOrDefault ra, retryAfterOrDefault ra, retryAfterOrDefault ra], 3) := by
  constructor <;> rfl

/-- Claim C1 (amended, witness). -/
theorem c1_429_retry_after_amended_witness :
    make_request (fun n => if n = 0 then .response 429 none else .response 200 none) =
      (.success 200, [60], 2) :=
  (c1_429_retry_after_amended none).1

/-- Claim C2 (counterexample): in the `snyk_utility.py` executor a 401
response IS retried: `raise_for_status` raises `HTTPError`, which the generic
`except RequestException` arm catches like any other failure.  A 401 on the
first attempt followed by a 200 yields a success after a 1-second backoff
sleep and 2 attempts (so the executor neither raised immediately nor skipped
the sleep), and three consecutive 401s are retried with backoff sleeps
`[1, 2]` before the final 401 error is raised. -/
theorem c2_401_retried_counterexample :
    make_request (fun n => if n = 0 then .response 401 none else .response 200 none) =
      (.success 200, [1], 2) ∧
    make_request (fun _ => .response 401 none) = (.raisedError (some 401), [1, 2], 3) := by
  decide

/-- Claim C2 (amended): only the `snyk_auth_debug.py` executor never retries
a 401 — there, a 401 at any loop position raises the authentication error
immediately, with no sleep and no further attempts, regardless of the
remaining budget.  The main `snyk_utility.py` executor instead treats a 401
like any other HTTP error: it consumes the retry budget and is retried with
backoff sleeps until the budget is exhausted. -/
theorem c2_401_amended :
    (∀ (outcomes : Nat → Attempt) (fuel attempt : Nat) (ra : Option Nat),
      outcomes attempt = .response 401 ra →
      makeRequestDebugGo outcomes (fuel + 1) attempt = (.raisedError (some 401), [], 1)) ∧
    make_request (fun _ => .response 401 none) = (.raisedError (some 401), [1, 2], 3) := by
  constructor
  · intro outcomes fuel attempt ra h
    simp [makeRequestDebugGo, h]
  · decide

/-- Claim C2 (amended, witness): the debug executor, rate limited on its
first attempt and given a 401 on its second, raises immediately at the 401. -/
theorem c2_401_amended_witness :
    makeRequestDebugGo (fun n => if n = 0 then .response 429 none else .response 401 none)
      (1 + 1) 1 = (.raisedError (some 401), [], 1) :=
  c2_401_amended.1 (fun n => if n = 0 then .response 429 none else .response 401 none)
    1 1 none rfl

/-- Claim C3 (counterexample): when every attempt fails with a transport
error, the executor makes exactly 3 attempts but performs only TWO backoff
sleeps, of 1 s and 2 s — there are only two gaps between three attempts, and
the 4 s backoff value (`2 ** 2`) is never slept because the third attempt
re-raises instead of sleeping.  The claimed sleep sequence `[1, 2, 4]` is
not what the executor does. -/
theorem c3_backoff_counterexample :
    make_request (fun _ => .transportError) = (.raisedError none, [1, 2], 3) ∧
    (make_request (fun _ => .transportError)).2.1 ≠ [1, 2, 4] := by
  decide

/-- Claim C3 (amended): for every execution whose attempts all fail with a
transport failure or a non-429 4xx/5xx response (e.g. a plain 500), the
executor makes exactly 3 attempts in total, sleeps with exponential backoff
1 s then 2 s between consecutive attempts (the 4 s value of the `1 * 2 **
attempt` schedule is never reached), and then fails by raising the final
error. -/
theorem c3_three_attempts_amended (outcomes : Nat → Attempt)
    (h : ∀ i, i < max_retries → isPlainFailure (outcomes i)) :
    ∃ st, make_request outcomes = (.raisedError st, [1, 2], 3) := by
  have h0 := h 0 (by decide)
  have h1 := h 1 (by decide)
  have h2 := h 2 (by decide)
  unfold make_request max_retries
  match e0 : outcomes 0 with
  | .transportError =>
    rw [makeRequestGo, e0]
    match e1 : outcomes 1 with
    | .transportError =>
      rw [makeRequestGo, e1]
      match e2 : outcomes 2 with
      | .transportError =>
        rw [makeRequestGo, e2]
        exact ⟨none, rfl⟩
      | .response s ra =>
        rw [e2] at h2
        obtain ⟨hs1, hs2, hs3⟩ := h2
        rw [makeRequestGo, e2]
        simp only [raisesForStatus, if_neg hs3, if_pos (by decide : (2 : Nat) = max_retries - 1),
          if_pos (by simp [hs1, hs2] : (400 ≤ s && s < 600) = true)]
        exact ⟨some s, rfl⟩
    | .response s ra =>
      rw [e1] at h1
      obtain ⟨hs1, hs2, hs3⟩ := h1
      rw [makeRequestGo, e1]
      simp only [raisesForStatus, if_neg hs3,
        if_pos (by simp [hs1, hs2] : (400 ≤ s && s < 600) = true),
        if_neg (by decide : ¬ (1 : Nat) = max_retries - 1)]
      match e2 : outcomes 2 with
      | .transportError =>
        rw [makeRequestGo, e2]
        exact ⟨none, rfl⟩
      | .response s' ra' =>
        rw [e2] at h2
        obtain ⟨hs1', hs2', hs3'⟩ := h2
        rw [makeRequestGo, e2]
        simp only [raisesForStatus, if_neg hs3',
          if_pos (by simp [hs1', hs2'] : (400 ≤ s' && s' < 600) = true),
          if_pos (by decide : (2 : Nat) = max_retries - 1)]
        exact ⟨some s', rfl⟩
  | .response s ra =>
    rw [e0] at h0
    obtain ⟨hs1, hs2, hs3⟩ := h0
    rw [makeRequestGo, e0]
    simp only [raisesForStatus, if_neg hs3,
      if_pos (by simp [hs1, hs2] : (400 ≤ s && s < 600) = true),
      if_neg (by decide : ¬ (0 : Nat) = max_retries - 1)]
    match e1 : outcomes 1 with
    | .transportError =>
      rw [makeRequestGo, e1]
      match e2 : outcomes 2 with
      | .transportError =>
        rw [makeRequestGo, e2]
        exact ⟨none, rfl⟩
      | .response s' ra' =>
        rw [e2] at h2
        obtain ⟨hs1', hs2', hs3'⟩ := h2
        rw [makeRequestGo, e2]
        simp only [raisesForStatus, if_neg hs3',
          if_pos (by simp [hs1', hs2'] : (400 ≤ s' && s' < 600) = true),
          if_pos (by decide : (2 : Nat) = max_retries - 1)]
        exact ⟨some s', rfl⟩
    | .response s' ra' =>
      rw [e1] at h1
      obtain ⟨hs1', hs2', hs3'⟩ := h1
      rw [makeRequestGo, e1]
      simp only [raisesForStatus, if_neg hs3',
        if_pos (by simp [hs1', hs2'] : (400 ≤ s' && s' < 600) = true),
        if_neg (by decide : ¬ (1 : Nat) = max_retries - 1)]
      match e2 : outcomes 2 with
      | .transportError =>
        rw [makeRequestGo, e2]
        exact ⟨none, rfl⟩
      | .response s'' ra'' =>
        rw [e2] at h2
        obtain ⟨hs1'', hs2'', hs3''⟩ := h2
        rw [makeRequestGo, e2]
        simp only [raisesForStatus, if_neg hs3'',
          if_pos (by simp [hs1'', hs2''] : (400 ≤ s'' && s'' < 600) = true),
          if_pos (by decide : (2 : Nat) = max_retries - 1)]
        exact ⟨some s'', rfl⟩

/-- Claim C3 (amended, witness): all attempts fail with a plain 500. -/
theorem c3_three_attempts_amended_witness :
    ∃ st, make_request (fun _ => .response 500 none) = (.raisedError st, [1, 2], 3) :=
  c3_three_attempts_amended (fun _ => .response 500 none)
    (fun i _ => ⟨by omega, by omega, by omega⟩)

/-- Claim C4: `smart_add_waiver` with `skip_if_waived = true`, a successful
issue-existence probe, and at least one active waiver among the fetched
existing waivers returns status `skipped_existing_waiver` and never invokes
`add_waiver` (for either outcome the creation request could have had). -/
theorem c4_skip_if_waived (ws : List SnykWaiver) (add_ok : Bool)
    (h : ∃ w ∈ ws, w.is_active = true) :
    smart_add_waiver true ws add_ok true = ("skipped_existing_waiver", false) :=
  smart_add_waiver_skips_active ws add_ok h

/-- Claim C4 (witness): one active waiver present. -/
theorem c4_skip_if_waived_witness :
    smart_add_waiver true
      [⟨"w1", "i1", "p1", "", "reason", "temporary", "2024-01-01", "2099-01-01", "user",
        true, "", ""⟩] false true = ("skipped_existing_waiver", false) :=
  c4_skip_if_waived
    [⟨"w1", "i1", "p1", "", "reason", "temporary", "2024-01-01", "2099-01-01", "user",
      true, "", ""⟩] false ⟨_, List.mem_singleton.2 rfl, rfl⟩

/-- Claim C5: whenever the existence probe reports not-found,
`smart_add_waiver` returns `skipped_no_issue` without calling `add_waiver`,
for both values of `skip_if_waived` and for every list of existing waivers
(in particular one containing an active waiver — the existence check precedes
the waiver-collision check); and the returned status is always exactly one of
`added`, `skipped_existing_waiver`, `skipped_no_issue`, `failed`. -/
theorem c5_no_issue_and_status_range :
    ∀ (ws : List SnykWaiver) (add_ok skip_if_waived : Bool),
      smart_add_waiver false ws add_ok skip_if_waived = ("skipped_no_issue", false) ∧
      ∀ issue_exists : Bool,
        (smart_add_waiver issue_exists ws add_ok skip_if_waived).1 = "added" ∨
        (smart_add_waiver issue_exists ws add_ok skip_if_waived).1 = "skipped_existing_waiver" ∨
        (smart_add_waiver issue_exists ws add_ok skip_if_waived).1 = "skipped_no_issue" ∨
        (smart_add_waiver issue_exists ws add_ok skip_if_waived).1 = "failed" := by
  intro ws add_ok skip_if_waived
  refine ⟨rfl, ?_⟩
  intro issue_exists
  unfold smart_add_waiver
  split_ifs <;> simp

/-- Claim C9: a waiver built by `get_existing_waivers_for_issue` from a
response whose `expiry` attribute is missing/empty or fails ISO-8601 parsing
has `is_active = true`; consequently it survives the `active_only` filter of
`get_all_waivers`, is never selected by the expired-waiver cleanup, and
counts as an active waiver for the `skipped_existing_waiver` collision check
of `smart_add_waiver`. -/
theorem c9_unparseable_expiry_active (expiry : String) (parseIso : String → Option Int)
    (now : Int) (wid iid pid reason wtype created cby : String)
    (h : expiry = "" ∨ parseIso expiry = none) :
    (mkExistingWaiver wid iid pid reason wtype created expiry cby parseIso now).is_active
        = true ∧
    filterActiveOnly true
        [mkExistingWaiver wid iid pid reason wtype created expiry cby parseIso now] =
      [mkExistingWaiver wid iid pid reason wtype created expiry cby parseIso now] ∧
    expiredWaivers
        [mkExistingWaiver wid iid pid reason wtype created expiry cby parseIso now] = [] ∧
    ∀ add_ok : Bool,
      smart_add_waiver true
          [mkExistingWaiver wid iid pid reason wtype created expiry cby parseIso now]
          add_ok true = ("skipped_existing_waiver", false) := by
  have hact :
      (mkExistingWaiver wid iid pid reason wtype created expiry cby parseIso now).is_active
        = true := by
    show computeIsActive expiry parseIso now = true
    unfold computeIsActive
    rcases h with h | h
    · rw [if_pos h]
    · rw [h]
      split <;> rfl
  refine ⟨hact, ?_, ?_, ?_⟩
  · simp [filterActiveOnly, hact]
  · simp [expiredWaivers, hact]
  · intro add_ok
    exact smart_add_waiver_skips_active _ add_ok ⟨_, List.mem_singleton.2 rfl, hact⟩

/-- Claim C9 (witness): an unparseable expiry string, and an empty one. -/
theorem c9_unparseable_expiry_active_witness :
    (mkExistingWaiver "w1" "i1" "p1" "r" "temporary" "c" "unknown" "u"
        (fun _ => none) 0).is_active = true ∧
    expiredWaivers
        [mkExistingWaiver "w1" "i1" "p1" "r" "temporary" "c" "" "u" (fun _ => some 7) 0]
      = [] :=
  ⟨(c9_unparseable_expiry_active "unknown" (fun _ => none) 0 "w1" "i1" "p1" "r"
      "temporary" "c" "u" (Or.inr rfl)).1,
   (c9_unparseable_expiry_active "" (fun _ => some 7) 0 "w1" "i1" "p1" "r"
      "temporary" "c" "u" (Or.inl rfl)).2.2.1⟩

/-- Claim C6: `SnykIssue` equality and hashing are keyed on exactly the
triple `(id, package_name, package_version)`: `__eq__` holds iff the hashed
triples agree, and two issues sharing an id but differing in package name or
version are unequal.  `get_distinct_issues` is the set union of the fetched
per-project lists under this identity: every member was fetched from some
listed project, every fetched issue is represented by an equal member, issues
with overlapping ids but different package versions are both retained, and
issues identical in all three key fields across projects collapse to one. -/
theorem c6_issue_identity :
    (∀ a b : SnykIssue, SnykIssue.beq a b = true ↔ a.hashKey = b.hashKey) ∧
    (∀ a b : SnykIssue, a.id = b.id →
      a.package_name ≠ b.package_name ∨ a.package_version ≠ b.package_version →
      SnykIssue.beq a b = false) ∧
    (∀ (fetch : String → List SnykIssue) (pids : List String) (x : SnykIssue),
      x ∈ get_distinct_issues fetch pids → ∃ p ∈ pids, x ∈ fetch p) ∧
    (∀ (fetch : String → List SnykIssue) (pids : List String) (p : String) (y : SnykIssue),
      p ∈ pids → y ∈ fetch p →
      ∃ r ∈ get_distinct_issues fetch pids, SnykIssue.beq r y = true) ∧
    (∀ a b : SnykIssue, SnykIssue.beq a b = false →
      get_distinct_issues (fun p => if p = "p1" then [a] else [b]) ["p1", "p2"] = [a, b]) ∧
    (∀ a b : SnykIssue, SnykIssue.beq a b = true →
      get_distinct_issues (fun p => if p = "p1" then [a] else [b]) ["p1", "p2"] = [a]) := by
  refine ⟨?_, ?_, ?_, ?_, ?_, ?_⟩
  · intro a b
    rw [SnykIssue.beq_iff]
    unfold SnykIssue.hashKey
    constructor
    · rintro ⟨h1, h2, h3⟩; rw [h1, h2, h3]
    · intro h
      exact ⟨congrArg (fun t => t.1) h, congrArg (fun t => t.2.1) h,
        congrArg (fun t => t.2.2) h⟩
  · intro a b hid hne
    rcases e : SnykIssue.beq a b with _ | _
    · rfl
    · obtain ⟨h1, h2, h3⟩ := SnykIssue.beq_iff.1 e
      rcases hne with hne | hne
      · exact absurd h2 hne
      · exact absurd h3 hne
  · intro fetch pids x hx
    rcases mem_of_mem_foldl_distinctStep pids [] hx with h | h
    · cases h
    · exact h
  · intro fetch pids p y hp hy
    exact covered_foldl_distinctStep pids [] hp hy
  · intro a b h
    rw [get_distinct_issues_two]
    unfold insertIssue
    simp [h]
  · intro a b h
    rw [get_distinct_issues_two]
    unfold insertIssue
    simp [h]

/-- Claim C6 (witness): same id, same package name, different package
versions — both retained. -/
theorem c6_issue_identity_witness :
    SnykIssue.beq
        ⟨"SNYK-1", "t", "high", "vuln", "p1", "P1", "lodash", "1.0.0", "d"⟩
        ⟨"SNYK-1", "t", "high", "vuln", "p2", "P2", "lodash", "2.0.0", "d"⟩ = false ∧
    get_distinct_issues
        (fun p => if p = "p1"
          then [⟨"SNYK-1", "t", "high", "vuln", "p1", "P1", "lodash", "1.0.0", "d"⟩]
          else [⟨"SNYK-1", "t", "high", "vuln", "p2", "P2", "lodash", "2.0.0", "d"⟩])
        ["p1", "p2"]
      = [⟨"SNYK-1", "t", "high", "vuln", "p1", "P1", "lodash", "1.0.0", "d"⟩,
         ⟨"SNYK-1", "t", "high", "vuln", "p2", "P2", "lodash", "2.0.0", "d"⟩] ∧
    get_distinct_issues
        (fun p => if p = "p1"
          then [⟨"SNYK-1", "t", "high", "vuln", "p1", "P1", "lodash", "1.0.0", "d"⟩]
          else [⟨"SNYK-1", "t", "high", "vuln", "p1", "P1", "lodash", "1.0.0", "d"⟩])
        ["p1", "p2"]
      = [⟨"SNYK-1", "t", "high", "vuln", "p1", "P1", "lodash", "1.0.0", "d"⟩] :=
  ⟨c6_issue_identity.2.1
      ⟨"SNYK-1", "t", "high", "vuln", "p1", "P1", "lodash", "1.0.0", "d"⟩
      ⟨"SNYK-1", "t", "high", "vuln", "p2", "P2", "lodash", "2.0.0", "d"⟩
      rfl (Or.inr (by decide)),
   c6_issue_identity.2.2.2.2.1
      ⟨"SNYK-1", "t", "high", "vuln", "p1", "P1", "lodash", "1.0.0", "d"⟩
      ⟨"SNYK-1", "t", "high", "vuln", "p2", "P2", "lodash", "2.0.0", "d"⟩
      (by decide),
   c6_issue_identity.2.2.2.2.2
      ⟨"SNYK-1", "t", "high", "vuln", "p1", "P1", "lodash", "1.0.0", "d"⟩
      ⟨"SNYK-1", "t", "high", "vuln", "p1", "P1", "lodash", "1.0.0", "d"⟩
      (by decide)⟩

/-- Claim C10: every issue constructed by `get_project_issues` has
`package_name = "Unknown"` and `package_version = "Unknown"`, so on the fetch
path the `(id, package_name, package_version)` identity degenerates to
identity on `id` alone: any two fetched issues sharing an id are equal under
`SnykIssue.__eq__`, and `get_distinct_issues` over fetched per-project lists
can never retain two issues with the same id — distinct members of its result
always have distinct ids. -/
theorem c10_fetch_degenerate_identity :
    (∀ (pid pname : String) (d : IssueAttrs),
      (mkProjectIssue pid pname d).package_name = "Unknown" ∧
      (mkProjectIssue pid pname d).package_version = "Unknown") ∧
    (∀ (pid pname : String) (d : IssueAttrs) (pid' pname' : String) (d' : IssueAttrs),
      d.data_id = d'.data_id →
      SnykIssue.beq (mkProjectIssue pid pname d) (mkProjectIssue pid' pname' d') = true) ∧
    (∀ (meta : String → String × List IssueAttrs) (pids : List String) (x y : SnykIssue),
      x ∈ get_distinct_issues (fun p => get_project_issues p (meta p).1 (meta p).2) pids →
      y ∈ get_distinct_issues (fun p => get_project_issues p (meta p).1 (meta p).2) pids →
      x ≠ y → x.id ≠ y.id) := by
  refine ⟨fun _ _ _ => ⟨rfl, rfl⟩, ?_, ?_⟩
  · intro pid pname d pid' pname' d' h
    exact SnykIssue.beq_iff.2 ⟨h, rfl, rfl⟩
  · intro meta pids x y hx hy hne
    have hbeq : SnykIssue.beq x y = false :=
      pairwiseDistinct_get_distinct_issues _ pids x hx y hy hne
    have coords : ∀ z : SnykIssue,
        z ∈ get_distinct_issues (fun p => get_project_issues p (meta p).1 (meta p).2) pids →
        z.package_name = "Unknown" ∧ z.package_version = "Unknown" := by
      intro z hz
      rcases mem_of_mem_foldl_distinctStep pids [] hz with h | ⟨p, _, hzp⟩
      · cases h
      · obtain ⟨d, _, rfl⟩ := List.mem_map.1 hzp
        exact ⟨rfl, rfl⟩
    intro hid
    have hx' := coords x hx
    have hy' := coords y hy
    have : SnykIssue.beq x y = true :=
      SnykIssue.beq_iff.2 ⟨hid, hx'.1.trans hy'.1.symm, hx'.2.trans hy'.2.symm⟩
    rw [this] at hbeq
    cases hbeq

/-- Claim C10 (witness): two fetched entries with distinct ids stay distinct
members with distinct ids; two entries agreeing on id are `__eq__`-equal even
with different projects and titles. -/
theorem c10_fetch_degenerate_identity_witness :
    (mkProjectIssue "p" "N" ⟨"a", "t1", "high", "vuln", "d"⟩).package_name = "Unknown" ∧
    SnykIssue.beq (mkProjectIssue "p" "N" ⟨"a", "t1", "high", "vuln", "d"⟩)
      (mkProjectIssue "q" "M" ⟨"a", "t2", "low", "vuln", "d"⟩) = true ∧
    (mkProjectIssue "p" "N" ⟨"a", "t1", "high", "vuln", "d"⟩).id ≠
      (mkProjectIssue "p" "N" ⟨"b", "t2", "low", "vuln", "d"⟩).id :=
  ⟨(c10_fetch_degenerate_identity.1 "p" "N" ⟨"a", "t1", "high", "vuln", "d"⟩).1,
   c10_fetch_degenerate_identity.2.1 "p" "N" ⟨"a", "t1", "high", "vuln", "d"⟩
     "q" "M" ⟨"a", "t2", "low", "vuln", "d"⟩ rfl,
   c10_fetch_degenerate_identity.2.2
     (fun _ => ("N", [⟨"a", "t1", "high", "vuln", "d"⟩, ⟨"b", "t2", "low", "vuln", "d"⟩]))
     ["p"]
     (mkProjectIssue "p" "N" ⟨"a", "t1", "high", "vuln", "d"⟩)
     (mkProjectIssue "p" "N" ⟨"b", "t2", "low", "vuln", "d"⟩)
     (by decide) (by decide) (by decide)⟩

/-- Claim C7: in `bulk_add_waivers_by_project_list`, for a project whose
issue reference is resolved by case-insensitive substring match on title
(i.e. the reference does not start with `SNYK-`): zero matching issues yields
status `skipped_no_issue`, more than one matching issue yields status
`failed` with `smart_add_waiver` never called (the ambiguity is not
auto-resolved and no waiver is created), and exactly one match proceeds to
`smart_add_waiver` with that issue's id. -/
theorem c7_title_resolution (issue_reference : String) (project_issues : List SnykIssue)
    (smart : String → String × Bool) (href : refIsDirectId issue_reference = false) :
    (resolveByTitle issue_reference project_issues = [] →
      bulk_project_outcome issue_reference project_issues smart
        = (("skipped_no_issue", false), none)) ∧
    ((resolveByTitle issue_reference project_issues).length > 1 →
      bulk_project_outcome issue_reference project_issues smart
        = (("failed", false), none)) ∧
    (∀ i : SnykIssue, resolveByTitle issue_reference project_issues = [i] →
      bulk_project_outcome issue_reference project_issues smart
        = (smart i.id, some i.id)) := by
  refine ⟨?_, ?_, ?_⟩
  · intro e
    unfold bulk_project_outcome
    rw [href, e]
    rfl
  · intro hlen
    unfold bulk_project_outcome
    rw [href]
    match e : resolveByTitle issue_reference project_issues with
    | [] => rw [e] at hlen; cases hlen
    | [i] => rw [e] at hlen; simp at hlen
    | i :: j :: t => rfl
  · intro i e
    unfold bulk_project_outcome
    rw [href, e]
    rfl

/-- Claim C7 (witness): the reference `"xss"` is not a direct id; an empty
project yields `skipped_no_issue`, two matching titles yield `failed`, and a
single match proceeds to `smart_add_waiver` with the matched issue's id. -/
theorem c7_title_resolution_witness :
    bulk_project_outcome "xss" [] (fun _ => ("added", true))
      = (("skipped_no_issue", false), none) ∧
    bulk_project_outcome "xss"
        [⟨"i1", "XSS in parser", "high", "vuln", "p", "P", "u", "u", "d"⟩,
         ⟨"i2", "Stored xss", "high", "vuln", "p", "P", "u", "u", "d"⟩]
        (fun _ => ("added", true))
      = (("failed", false), none) ∧
    bulk_project_outcome "xss"
        [⟨"i1", "XSS in parser", "high", "vuln", "p", "P", "u", "u", "d"⟩]
        (fun _ => ("added", true))
      = (("added", true), some "i1") :=
  ⟨(c7_title_resolution "xss" [] (fun _ => ("added", true)) (by decide)).1 rfl,
   (c7_title_resolution "xss"
      [⟨"i1", "XSS in parser", "high", "vuln", "p", "P", "u", "u", "d"⟩,
       ⟨"i2", "Stored xss", "high", "vuln", "p", "P", "u", "u", "d"⟩]
      (fun _ => ("added", true)) (by decide)).2.1 (by decide),
   (c7_title_resolution "xss"
      [⟨"i1", "XSS in parser", "high", "vuln", "p", "P", "u", "u", "d"⟩]
      (fun _ => ("added", true)) (by decide)).2.2
     ⟨"i1", "XSS in parser", "high", "vuln", "p", "P", "u", "u", "d"⟩ (by decide)⟩

/-- Claim C8: the built-in name sets are exactly the nine template names of
the first revision (ending in `internal_tool`) and the ten of the second
(additionally `compensating_controls`); and for either revision's defaults —
indeed for any recomputed defaults list — removing a name that belongs to the
built-in (default) template set returns `false` and leaves both the in-memory
template list and the persisted JSON file unchanged, while removal returns
`true` exactly when the name is not a default name and a template with that
name is present — i.e. only a present custom template can be removed. -/
theorem c8_remove_template_defaults :
    default_names default_templates =
      ["false_positive", "dev_dependency", "upgrade_planned", "no_exploit_path",
       "low_risk_accepted", "legacy_system", "vendor_patch_pending", "test_environment",
       "internal_tool"] ∧
    default_names default_templates_v2 =
      ["false_positive", "dev_dependency", "upgrade_planned", "no_exploit_path",
       "compensating_controls", "low_risk_accepted", "legacy_system",
       "vendor_patch_pending", "test_environment", "internal_tool"] ∧
    ∀ defaults : List WaiverTemplate,
      (∀ (st : TemplateState) (name : String),
        (default_names defaults).contains name = true →
        remove_template defaults st name = (false, st)) ∧
      (∀ (st : TemplateState) (name : String),
        (remove_template defaults st name).1 = true →
        (default_names defaults).contains name = false ∧
          ∃ t ∈ st.templates, t.name = name) ∧
      (∀ (st : TemplateState) (name : String),
        (default_names defaults).contains name = false →
        (∃ t ∈ st.templates, t.name = name) →
        (remove_template defaults st name).1 = true) := by
  refine ⟨rfl, rfl, ?_⟩
  intro defaults
  refine ⟨?_, ?_, ?_⟩
  · intro st name h
    unfold remove_template
    rw [if_pos h]
  · intro st name h
    unfold remove_template at h
    by_cases hd : (default_names defaults).contains name = true
    · rw [if_pos hd] at h; cases h
    · have hd' : (default_names defaults).contains name = false := Bool.of_not_eq_true hd
      refine ⟨hd', ?_⟩
      rw [if_neg hd] at h
      match e : removeFirstByName st.templates name with
      | some l => exact (removeFirstByName_isSome_iff st.templates name).1 ⟨l, e⟩
      | none => rw [e] at h; cases h
  · intro st name hd hex
    obtain ⟨l, hl⟩ := (removeFirstByName_isSome_iff st.templates name).2 hex
    unfold remove_template
    rw [if_neg (by rw [hd]; exact Bool.false_ne_true), hl]

/-- Claim C8 (witness): removing the built-in `internal_tool` under the first
revision's defaults — and `compensating_controls` under the second's — fails
and changes nothing, while removing a present custom template succeeds. -/
theorem c8_remove_template_defaults_witness :
    remove_template default_templates ⟨default_templates, []⟩ "internal_tool"
      = (false, ⟨default_templates, []⟩) ∧
    remove_template default_templates_v2 ⟨default_templates_v2, []⟩ "compensating_controls"
      = (false, ⟨default_templates_v2, []⟩) ∧
    (remove_template default_templates
        ⟨default_templates ++ [⟨"my_team_waiver", "d", "temporary", 30, "j", "team"⟩], []⟩
        "my_team_waiver").1 = true :=
  ⟨(c8_remove_template_defaults.2.2 default_templates).1
     ⟨default_templates, []⟩ "internal_tool" (by decide),
   (c8_remove_template_defaults.2.2 default_templates_v2).1
     ⟨default_templates_v2, []⟩ "compensating_controls" (by decide),
   (c8_remove_template_defaults.2.2 default_templates).2.2
     ⟨default_templates ++ [⟨"my_team_waiver", "d", "temporary", 30, "j", "team"⟩], []⟩
     "my_team_waiver" (by decide)
     ⟨⟨"my_team_waiver", "d", "temporary", 30, "j", "team"⟩,
      List.mem_append_right _ (List.mem_singleton.2 rfl), rfl⟩⟩
